import Mathlib

/-!
A shallow embedding of the UGL environment-lifecycle and session-command-routing
core (`src/ugl/filesystem.py`, `src/ugl/environment.py`, `src/ugl/json_store.py`,
`src/ugl/services.py`), with theorems checking the natural-language specification
against it.

Modelling conventions:
* Python strings are Lean `String`; character-level work happens on `.data`.
* Python `pathlib.Path` values are modelled as Windows-style path strings
  (the program targets Windows: `C:/EDUIT`, `gam.exe`); `Path` construction
  normalises `/` to `\`, and `a / b` is string concatenation with `\`.
* The filesystem is an explicit state: a list of directory paths and a list of
  `(path, bytes)` file entries, threaded through every effectful function.
* JSON/Python values are the inductive `JVal` (`jnull` doubles as Python
  `None`); `json.loads` is modelled as an `Option JVal` input (parse failure is
  `none`), and `json.dumps` is a concrete serializer `dumpsV` whose exact byte
  output no theorem depends on.
* Child processes are modelled by an oracle giving each spawn its exit code;
  the router records the spawn events it performs.
-/

/-- Python whitespace, as stripped by `str.strip()`. -/
def isPySpace (c : Char) : Bool :=
  c == ' ' || c == '\t' || c == '\n' || c == '\r' || c == '\x0b' || c == '\x0c'

/-- The quote character stripped by `str.strip('"')`. -/
def isQuoteChar (c : Char) : Bool := c == '"'

/-- Python `str.strip(chars)`: remove matching characters from both ends. -/
def stripEnds (p : Char → Bool) (l : List Char) : List Char :=
  ((l.dropWhile p).reverse.dropWhile p).reverse

/-- `str.replace("/", "\\")`, pointwise on one character. -/
def slashToBackslash (c : Char) : Char := if c == '/' then '\\' else c

/-- Core of `filesystem.normalise_path` on character lists:
`path_value.strip().strip('"').replace("/", "\\")`. -/
def normaliseChars (l : List Char) : List Char :=
  (stripEnds isQuoteChar (stripEnds isPySpace l)).map slashToBackslash

/-- `filesystem.normalise_path` (src/ugl/filesystem.py, lines 8-12):
returns `None` only for `None` input, otherwise strips surrounding whitespace,
then surrounding `"` characters, then rewrites `/` to `\`. -/
def normalise_path : Option String → Option String
  | none => none
  | some s => some ⟨normaliseChars s.data⟩

/-- `normalise_path(s) or ""` at call sites where `s` is a string
(Python truthiness: a falsy — empty — result is replaced by `""`,
which is the same string). -/
def normOrEmpty (s : String) : String :=
  match normalise_path (some s) with
  | some c => if c == "" then "" else c
  | none => ""

/- ### List lemmas backing the idempotence analysis of `normalise_path` -/

theorem dropWhile_idem {α : Type} (p : α → Bool) (l : List α) :
    List.dropWhile p (List.dropWhile p l) = List.dropWhile p l := by
  induction l with
  | nil => rfl
  | cons a t ih =>
    by_cases h : p a = true
    · simp [List.dropWhile_cons, h, ih]
    · simp [List.dropWhile_cons, h]

theorem head_not_of_dropWhile_eq_cons {α : Type} {p : α → Bool} {l t : List α} {a : α}
    (h : List.dropWhile p l = a :: t) : p a = false := by
  induction l with
  | nil => simp [List.dropWhile] at h
  | cons b u ih =>
    rw [List.dropWhile_cons] at h
    by_cases hb : p b = true
    · rw [if_pos hb] at h; exact ih h
    · rw [if_neg hb] at h
      cases h
      cases hpb : p a with
      | false => rfl
      | true => exact absurd hpb hb

theorem dropWhile_eq_self_of_prefix {α : Type} {p : α → Bool} {u v : List α}
    (hu : List.dropWhile p u = u) (hv : v <+: u) :
    List.dropWhile p v = v := by
  cases v with
  | nil => rfl
  | cons a t =>
    cases u with
    | nil => exact absurd (List.IsPrefix.length_le hv) (by simp)
    | cons b w =>
      obtain ⟨r, hr⟩ := hv
      have hab : a = b := by injection hr
      have hpb : p b = false := head_not_of_dropWhile_eq_cons hu
      rw [List.dropWhile_cons, hab]
      simp [hpb]

theorem reverse_dropWhile_reverse_isPre {α : Type} (p : α → Bool) (u : List α) :
    (List.dropWhile p u.reverse).reverse <+: u := by
  rw [← List.reverse_suffix]
  simpa using List.dropWhile_suffix (l := u.reverse) p

theorem dropWhile_stripEnds (p : Char → Bool) (l : List Char) :
    List.dropWhile p (stripEnds p l) = stripEnds p l := by
  unfold stripEnds
  exact dropWhile_eq_self_of_prefix (dropWhile_idem p l)
    (reverse_dropWhile_reverse_isPre p (List.dropWhile p l))

theorem dropWhile_reverse_stripEnds (p : Char → Bool) (l : List Char) :
    List.dropWhile p (stripEnds p l).reverse = (stripEnds p l).reverse := by
  unfold stripEnds
  rw [List.reverse_reverse]
  exact dropWhile_idem p _

theorem stripEnds_self (p : Char → Bool) (l : List Char)
    (h1 : List.dropWhile p l = l) (h2 : List.dropWhile p l.reverse = l.reverse) :
    stripEnds p l = l := by
  unfold stripEnds
  rw [h1, h2, List.reverse_reverse]

theorem dropWhile_map_eq_self {p : Char → Bool} {f : Char → Char}
    (hf : ∀ c, p (f c) = true → p c = true) {l : List Char}
    (h : List.dropWhile p l = l) : List.dropWhile p (l.map f) = l.map f := by
  cases l with
  | nil => rfl
  | cons a t =>
    have hpa : p a = false := head_not_of_dropWhile_eq_cons h
    have hfa : p (f a) = false := by
      cases hq : p (f a) with
      | false => rfl
      | true => rw [hf a hq] at hpa; exact absurd hpa (by simp)
    simp [List.dropWhile_cons, hfa]

theorem quote_reflect (c : Char) (h : isQuoteChar (slashToBackslash c) = true) :
    isQuoteChar c = true := by
  unfold slashToBackslash at h
  by_cases hc : c = '/'
  · subst hc; exact absurd h (by decide)
  · simpa [hc] using h

theorem slashToBackslash_idem (c : Char) :
    slashToBackslash (slashToBackslash c) = slashToBackslash c := by
  by_cases hc : c = '/'
  · subst hc; rfl
  · simp [slashToBackslash, hc]

theorem stripEnds_quote_map_slash (m : List Char) :
    stripEnds isQuoteChar ((stripEnds isQuoteChar m).map slashToBackslash)
      = (stripEnds isQuoteChar m).map slashToBackslash := by
  apply stripEnds_self
  · exact dropWhile_map_eq_self quote_reflect (dropWhile_stripEnds isQuoteChar m)
  · rw [← List.map_reverse]
    exact dropWhile_map_eq_self quote_reflect (dropWhile_reverse_stripEnds isQuoteChar m)

theorem map_slash_idem (l : List Char) :
    (l.map slashToBackslash).map slashToBackslash = l.map slashToBackslash := by
  rw [List.map_map]
  exact List.map_congr_left (fun c _ => slashToBackslash_idem c)

/-- Key fact: `normaliseChars` is idempotent exactly when its first output is
already whitespace-trimmed (stripping an outer quote layer can expose
whitespace that only a second pass removes). -/
theorem normaliseChars_idem_of_trimmed (l : List Char)
    (h : stripEnds isPySpace (normaliseChars l) = normaliseChars l) :
    normaliseChars (normaliseChars l) = normaliseChars l := by
  unfold normaliseChars at h ⊢
  rw [h, stripEnds_quote_map_slash, map_slash_idem]

/- ### JSON / Python values -/

/-- JSON values as Python holds them after `json.loads`; `jnull` also stands
for Python `None` (absent-key lookups). -/
inductive JVal where
  | jnull
  | jbool (b : Bool)
  | jnum (n : Int)
  | jstr (s : String)
  | jarr (xs : List JVal)
  | jobj (fields : List (String × JVal))

/-- Python truthiness of a `JVal`. -/
def truthy : JVal → Bool
  | .jnull => false
  | .jbool b => b
  | .jnum n => n != 0
  | .jstr s => s != ""
  | .jarr xs => !xs.isEmpty
  | .jobj fs => !fs.isEmpty

/-- Python `x or y`. -/
def pyOr (x y : JVal) : JVal := if truthy x then x else y

/-- Python `dict.get(k)`: the first binding of `k`, else `None`. -/
def dictGet (d : List (String × JVal)) (k : String) : JVal :=
  match d.find? (fun kv => kv.1 == k) with
  | some kv => kv.2
  | none => .jnull

/-- Python `dict[k] = v`: replace the first binding in place, else append. -/
def dictSet : List (String × JVal) → String → JVal → List (String × JVal)
  | [], k, v => [(k, v)]
  | (k0, v0) :: rest, k, v =>
      if k0 == k then (k0, v) :: rest else (k0, v0) :: dictSet rest k v

mutual

/-- Python `repr` of a `JVal` (strings single-quoted). No theorem depends on
its exact output; string-content escaping is not modelled. -/
def pyReprV : JVal → String
  | .jnull => "None"
  | .jbool b => if b then "True" else "False"
  | .jnum n => toString n
  | .jstr s => "\x27" ++ s ++ "\x27"
  | .jarr xs => "[" ++ pyReprArr xs ++ "]"
  | .jobj fs => "\x7b" ++ pyReprObj fs ++ "\x7d"

def pyReprArr : List JVal → String
  | [] => ""
  | [x] => pyReprV x
  | x :: y :: rest => pyReprV x ++ ", " ++ pyReprArr (y :: rest)

def pyReprObj : List (String × JVal) → String
  | [] => ""
  | [(k, v)] => "\x27" ++ k ++ "\x27: " ++ pyReprV v
  | (k, v) :: y :: rest => "\x27" ++ k ++ "\x27: " ++ pyReprV v ++ ", " ++ pyReprObj (y :: rest)

end

/-- Python `str(...)`: identity on strings, `repr`-like otherwise. -/
def pyStr : JVal → String
  | .jstr s => s
  | v => pyReprV v

mutual

/-- `json.dumps` (keys in model order, string escaping not modelled; no
theorem depends on the exact bytes, only that the document file is rewritten). -/
def dumpsV : JVal → String
  | .jnull => "null"
  | .jbool b => if b then "true" else "false"
  | .jnum n => toString n
  | .jstr s => "\"" ++ s ++ "\""
  | .jarr xs => "[" ++ dumpsArr xs ++ "]"
  | .jobj fs => "\x7b" ++ dumpsObj fs ++ "\x7d"

def dumpsArr : List JVal → String
  | [] => ""
  | [x] => dumpsV x
  | x :: y :: rest => dumpsV x ++ ", " ++ dumpsArr (y :: rest)

def dumpsObj : List (String × JVal) → String
  | [] => ""
  | [(k, v)] => "\"" ++ k ++ "\": " ++ dumpsV v
  | (k, v) :: y :: rest => "\"" ++ k ++ "\": " ++ dumpsV v ++ ", " ++ dumpsObj (y :: rest)

end

/- ### Environment records (src/ugl/environment.py) -/

/-- The `Environment` dataclass. `name` and `path` pass through `str(...)` in
the decoder so they are always strings; `admin` and `color` hold whatever
Python value the record carried (usually a string or `None`). -/
structure Environment where
  name : String
  path : String
  admin : JVal := .jnull
  color : JVal := .jnull

/-- `Environment.from_dict` (src/ugl/environment.py, lines 16-23).
`data.get(k)` yields `None` (`.jnull`) for an absent key; `x or y` is Python
short-circuit `or`; `str(...)` is `pyStr`. -/
def Environment.from_dict (data : List (String × JVal)) : Environment :=
  { name := pyStr (pyOr (pyOr (dictGet data "Name") (dictGet data "name")) (.jstr ""))
    path := pyStr (pyOr (pyOr (dictGet data "Path") (dictGet data "path")) (.jstr ""))
    admin := pyOr (dictGet data "Admin") (dictGet data "admin")
    color := pyOr (dictGet data "Color") (dictGet data "color") }

/-- `Environment.from_dict` applied to an arbitrary value: calling `.get` on a
non-dict raises `AttributeError`, modelled as `none`. -/
def Environment.fromVal : JVal → Option Environment
  | .jobj fields => some (Environment.from_dict fields)
  | _ => none

/-- `dataclasses.asdict` on an `Environment`: note the lower-case keys. -/
def Environment.asdict (e : Environment) : JVal :=
  .jobj [("name", .jstr e.name), ("path", .jstr e.path),
         ("admin", e.admin), ("color", e.color)]

/-- `load_environments` (src/ugl/environment.py, lines 26-28):
`data.get("Environments") or []`, then decode every item. Iterating a string
yields its one-character strings, iterating a dict yields its keys, iterating
any other non-list raises `TypeError` (`none`); a non-dict item makes
`from_dict` raise `AttributeError` (`none`). -/
def load_environments (data : List (String × JVal)) : Option (List Environment) :=
  match pyOr (dictGet data "Environments") (.jarr []) with
  | .jarr items => items.mapM Environment.fromVal
  | .jstr s => (s.data.map (fun c => JVal.jstr ⟨[c]⟩)).mapM Environment.fromVal
  | .jobj fs => (fs.map (fun kv => JVal.jstr kv.1)).mapM Environment.fromVal
  | _ => none

/-- `sanitise_environment_paths` (src/ugl/environment.py, lines 31-37), with
the running `enumerate` index made explicit. Issue tuples are
`(index, name, original, clean)`. -/
def sanitiseAux : Nat → List Environment → List (Nat × String × String × String)
  | _, [] => []
  | i, e :: rest =>
      let clean := normOrEmpty e.path
      if e.path ≠ clean then (i, e.name, e.path, clean) :: sanitiseAux (i + 1) rest
      else sanitiseAux (i + 1) rest

def sanitise_environment_paths (envs : List Environment) :
    List (Nat × String × String × String) :=
  sanitiseAux 0 envs

/-- `set_environments` (src/ugl/json_store.py, lines 52-54). -/
def set_environments (data : List (String × JVal)) (envs : List Environment) :
    List (String × JVal) :=
  dictSet data "Environments" (.jarr (envs.map Environment.asdict))

/-- `PathIssue` (src/ugl/services.py, lines 106-111). -/
structure PathIssue where
  index : Nat
  name : String
  original : String
  clean : String
deriving DecidableEq

/-- `environments[issue.index].path = issue.clean` for one issue tuple:
out-of-range indices cannot occur for issues produced by
`sanitise_environment_paths` but the model keeps the list unchanged there. -/
def setEnvPath (envs : List Environment) (i : Nat) (p : String) : List Environment :=
  match envs.get? i with
  | some e => envs.set i { e with path := p }
  | none => envs

/-- The `for issue in issues: environments[issue.index].path = issue.clean`
loop of `LauncherService.validate_paths` (src/ugl/services.py, lines 334-336). -/
def applyIssues (envs : List Environment)
    (issues : List (Nat × String × String × String)) : List Environment :=
  issues.foldl (fun acc iss => setEnvPath acc iss.1 iss.2.2.2) envs

/- ### Filesystem state and path model -/

/-- The filesystem as explicit state: a set of directories and a map from file
paths to their bytes, both as association lists. -/
structure FS where
  dirs : List String
  files : List (String × String)

/-- `parent / child` on Windows `Path`s. -/
def pathJoin (a b : String) : String := a ++ "\\" ++ b

/-- `pathlib.Path(s)` on Windows: `/` becomes `\`; `Path("")` renders as `"."`.
Other normalisations (duplicate separators, `..`) are not modelled; no claim
exercises them. -/
def mkPath (s : String) : String :=
  if s == "" then "." else ⟨s.data.map slashToBackslash⟩

def FS.isDir (st : FS) (p : String) : Bool := st.dirs.contains p

def FS.readFile (st : FS) (p : String) : Option String :=
  (st.files.find? (fun kv => kv.1 == p)).map (fun kv => kv.2)

def FS.isFile (st : FS) (p : String) : Bool := (st.readFile p).isSome

/-- `Path.exists()`: true for a directory or a file. -/
def FS.pathExists (st : FS) (p : String) : Bool := st.isDir p || st.isFile p

/-- `write_text`: create or overwrite. -/
def FS.writeFile (st : FS) (p c : String) : FS :=
  { st with files := (p, c) :: st.files.filter (fun kv => kv.1 != p) }

/-- `Path.unlink()` (only ever called after an `exists()` check). -/
def FS.unlink (st : FS) (p : String) : FS :=
  { st with files := st.files.filter (fun kv => kv.1 != p) }

/-- `mkdir(parents=True, exist_ok=True)`. Intermediate parents are not tracked
separately; no claim consults them. -/
def FS.mkdir (st : FS) (p : String) : FS :=
  if st.pathExists p then st else { st with dirs := p :: st.dirs }

/-- `shutil.rmtree`: drop the directory and everything below it. The model
always succeeds (the code downgrades `OSError` here to `folder_deleted=False`). -/
def FS.rmtree (st : FS) (p : String) : FS :=
  { dirs := st.dirs.filter (fun d => d != p && !((p ++ "\\").isPrefixOf d)),
    files := st.files.filter (fun kv => kv.1 != p && !((p ++ "\\").isPrefixOf kv.1)) }

/-- `datetime.now()` as passed into the store. -/
structure PyDateTime where
  year : Nat
  month : Nat
  day : Nat
  hour : Nat
  minute : Nat
  second : Nat
deriving DecidableEq

def pad2 (n : Nat) : String := if n < 10 then "0" ++ toString n else toString n

def pad4 (n : Nat) : String :=
  if n < 10 then "000" ++ toString n
  else if n < 100 then "00" ++ toString n
  else if n < 1000 then "0" ++ toString n
  else toString n

/-- `datetime.now().strftime("%Y%m%d_%H%M%S")`. -/
def strftime_timestamp (t : PyDateTime) : String :=
  pad4 t.year ++ pad2 t.month ++ pad2 t.day ++ "_" ++
    pad2 t.hour ++ pad2 t.minute ++ pad2 t.second

/- ### filesystem.py operations -/

/-- `ensure_directories` (src/ugl/filesystem.py, lines 15-17). -/
def ensure_directories (st : FS) (paths : List String) : FS :=
  paths.foldl FS.mkdir st

/-- `gam_exe_exists` (src/ugl/filesystem.py, lines 20-21). -/
def gam_exe_exists (st : FS) (folder : String) : Bool :=
  st.pathExists (pathJoin folder "gam.exe")

/-- `safe_folder_key` (src/ugl/filesystem.py, lines 24-26): drop every
character outside `[A-Za-z0-9- ]`, then drop all whitespace. -/
def safe_folder_key (name : String) : String :=
  ⟨(name.data.filter (fun c => c.isAlphanum || c == '-' || c == ' ')).filter
      (fun c => !isPySpace c)⟩

/-- `ensure_gam_structure` (src/ugl/filesystem.py, lines 29-32). -/
def ensure_gam_structure (st : FS) (base_path : String) : FS × String :=
  let gam_dir := pathJoin base_path ".gam"
  (ensure_directories st [gam_dir, pathJoin gam_dir "gamcache", pathJoin gam_dir "drive"],
   gam_dir)

/-- `remove_oauth_tokens` (src/ugl/filesystem.py, lines 35-38). -/
def remove_oauth_tokens (st : FS) (gam_dir : String) : FS :=
  [pathJoin gam_dir "oauth2.txt", pathJoin gam_dir "oauth2service.json"].foldl
    (fun s tok => if s.pathExists tok then s.unlink tok else s) st

/-- Re-root a path strictly below `source` to the same position below
`destination`; `none` if it is not below `source`. -/
def reRoot (source destination p : String) : Option String :=
  if (source ++ "\\").isPrefixOf p then
    some (destination ++ "\\" ++ p.drop (source.length + 1))
  else none

/-- `clone_template` (src/ugl/filesystem.py, lines 41-48): `destination.mkdir`
then a merge-copy of every entry of `template_source` into `destination`
(`copytree(dirs_exist_ok=True)` merges trees; `copy2` overwrites same-named
files). The per-entry `iterdir` recursion is flattened over the path lists. -/
def clone_template (st : FS) (template_source destination : String) : FS :=
  let st1 := st.mkdir destination
  let newDirs := st.dirs.filterMap (reRoot template_source destination)
  let newFiles := st.files.filterMap
    (fun kv => (reRoot template_source destination kv.1).map (fun q => (q, kv.2)))
  let st2 := newDirs.foldl FS.mkdir st1
  newFiles.foldl (fun s kv => s.writeFile kv.1 kv.2) st2

/- ### json_store.py -/

/-- `ensure_json_exists` (src/ugl/json_store.py, lines 12-15). -/
def parentDir (p : String) : String :=
  match p.data.reverse.dropWhile (fun c => c != '\\') with
  | [] => "."
  | _ :: rest => ⟨rest.reverse⟩

def ensure_json_exists (st : FS) (json_path : String) : FS :=
  if st.pathExists json_path then st
  else (st.mkdir (parentDir json_path)).writeFile json_path
    (dumpsV (.jobj [("Environments", .jarr [])]))

/-- The in-place repair of the `Environments` key in `load_json`
(src/ugl/json_store.py, lines 24-35): an absent key or JSON `null` becomes
`[]`; a dict is wrapped into a one-element list; a string becomes `[]`; any
other non-list (`list(...)` raising `TypeError`) becomes `[]`; a list is kept. -/
def repairDoc (fields : List (String × JVal)) : List (String × JVal) :=
  match dictGet fields "Environments" with
  | .jnull => dictSet fields "Environments" (.jarr [])
  | .jobj o => dictSet fields "Environments" (.jarr [.jobj o])
  | .jstr _ => dictSet fields "Environments" (.jarr [])
  | .jarr _ => fields
  | .jnum _ => dictSet fields "Environments" (.jarr [])
  | .jbool _ => dictSet fields "Environments" (.jarr [])

/-- The possible outcomes of `load_json`. -/
inductive LoadOutcome where
  | ok (doc : List (String × JVal))
  | failure
  | raises (excName : String)

/-- `load_json` (src/ugl/json_store.py, lines 18-37) given the result of the
`read_text`/`json.loads` step (`none` models `OSError`/`JSONDecodeError`,
which the code turns into the explicit `None` return). A well-formed non-object
top level reaches `content.get(...)`, which raises `AttributeError` on a list,
string or number — that exception is not caught. -/
def load_json : Option JVal → LoadOutcome
  | none => .failure
  | some (.jobj fields) => .ok (repairDoc fields)
  | some _ => .raises "AttributeError"

/-- `save_json` (src/ugl/json_store.py, lines 40-49). `datetime.now()` is the
`now` parameter. If the registry path exists but is a directory the code would
raise on `read_text`; the model reads empty bytes there (no claim exercises
it). -/
def save_json (st : FS) (json_path backup_root : String) (now : PyDateTime)
    (data : List (String × JVal)) : FS × Option String :=
  if st.pathExists json_path then
    let st1 := st.mkdir backup_root
    let backup_path := pathJoin backup_root ("GAM_Clients_" ++ strftime_timestamp now ++ ".json")
    let st2 := st1.writeFile backup_path ((st.readFile json_path).getD "")
    let st3 := st2.writeFile json_path (dumpsV (.jobj data))
    (st3, some backup_path)
  else
    (st.writeFile json_path (dumpsV (.jobj data)), none)

/- ### services.py -/

/-- `LauncherConfig` (src/ugl/config.py), with paths as Windows path strings. -/
structure LauncherConfig where
  config_root : String
  json_path : String
  log_root : String
  template_path : String
  json_backup_root : String
  clients_root : String

/-- The service-level error taxonomy (src/ugl/services.py, lines 90-103),
plus unhandled Python exceptions escaping a call. -/
inductive SvcError where
  | alreadyExists
  | notFound
  | pathError (resolved : String)
  | loadError
  | pyraise (excName : String)

structure CreateEnvironmentResult where
  environment : Environment
  backup_path : Option String
  template_source : Option String
  gam_exe_present : Bool
  warnings : List String

structure DeleteEnvironmentResult where
  backup_path : Option String
  folder_deleted : Bool
deriving DecidableEq

structure ValidationResult where
  issues : List PathIssue
  applied : Bool
  backup_path : Option String
deriving DecidableEq

/-- `EnvironmentSession` (src/ugl/services.py, lines 136-143). -/
structure EnvironmentSession where
  environment : Environment
  gam_path : String
  gam_dir : String
  gam_exe : String
  gam_available : Bool
  session_env : List (String × String)

/-- ASCII case-folding for Python `str.lower()` (the registry names under test
are ASCII). -/
def pyLower (s : String) : String := ⟨s.data.map Char.toLower⟩

/-- Setting one variable in a process-environment mapping
(`session_env["GAMCFGDIR"] = ...`). -/
def envSet : List (String × String) → String → String → List (String × String)
  | [], k, v => [(k, v)]
  | (k0, v0) :: rest, k, v =>
      if k0 == k then (k0, v) :: rest else (k0, v0) :: envSet rest k v

/-- `select_template_source` (src/ugl/services.py, lines 159-166): the template
root itself if it directly holds `gam.exe`, else the first immediate
subdirectory holding one (`iterdir` order modelled as the order of `FS.dirs`). -/
def childDirsOf (st : FS) (p : String) : List String :=
  st.dirs.filter (fun d => (p ++ "\\").isPrefixOf d && !(d.drop (p.length + 1)).contains '\\')

def select_template_source (st : FS) (template_path : String) : Option String :=
  if st.pathExists (pathJoin template_path "gam.exe") then some template_path
  else if st.pathExists template_path then
    (childDirsOf st template_path).find? (fun child => st.pathExists (pathJoin child "gam.exe"))
  else none

/-- `LauncherService.get_environment_by_name` (src/ugl/services.py, lines
256-261), given the parsed registry document: case-insensitive name lookup. -/
def get_environment_by_name (data : List (String × JVal)) (name : String) :
    Except SvcError Environment :=
  match load_environments data with
  | none => .error (.pyraise "AttributeError")
  | some environments =>
    match environments.find? (fun env => pyLower env.name == pyLower name) with
    | some env => .ok env
    | none => .error .notFound

/-- `LauncherService.create_environment` (src/ugl/services.py, lines 263-300),
with the parsed registry document given (the `_load_data`/`json.loads` step)
and `datetime.now()` as `now`. The filesystem state is threaded explicitly; a
raise returns the state exactly as mutated up to that point. The `OSError`
branch of the template copy is not modelled (the model's copy always
succeeds). -/
def create_environment (cfg : LauncherConfig) (data : List (String × JVal))
    (st : FS) (name : String) (admin color : JVal) (now : PyDateTime) :
    FS × Except SvcError CreateEnvironmentResult :=
  match load_environments data with
  | none => (st, .error (.pyraise "AttributeError"))
  | some environments =>
    let safe_key := safe_folder_key name
    let path := pathJoin cfg.clients_root safe_key
    if environments.any
        (fun env => env.name == name || normalise_path (some env.path) == some path) then
      (st, .error .alreadyExists)
    else
      let st1 := ensure_directories st [path]
      let template_source := select_template_source st1 cfg.template_path
      let warnings := match template_source with
        | some _ => []
        | none => ["No valid GAM template found."]
      let st2 := match template_source with
        | some ts => clone_template st1 ts path
        | none => st1
      let gs := ensure_gam_structure st2 path
      let st4 := remove_oauth_tokens gs.1 gs.2
      let environment : Environment := ⟨name, path, admin, color⟩
      let data2 := set_environments data (environments ++ [environment])
      let sv := save_json st4 cfg.json_path cfg.json_backup_root now data2
      (sv.1, .ok
        { environment := environment
          backup_path := sv.2
          template_source := template_source
          gam_exe_present := sv.1.pathExists (pathJoin path "gam.exe")
          warnings := warnings })

/-- `LauncherService.delete_environment` (src/ugl/services.py, lines 302-324),
given the parsed registry document. The name match is exact (`env.name ==
name`). The `OSError` branch of `rmtree` is not modelled. -/
def delete_environment (cfg : LauncherConfig) (data : List (String × JVal))
    (st : FS) (name : String) (delete_folder : Bool) (now : PyDateTime) :
    FS × Except SvcError DeleteEnvironmentResult :=
  match load_environments data with
  | none => (st, .error (.pyraise "AttributeError"))
  | some environments =>
    match environments.find? (fun env => env.name == name) with
    | none => (st, .error .notFound)
    | some target =>
      let environments2 := environments.filter (fun env => env.name != target.name)
      let data2 := set_environments data environments2
      let sv := save_json st cfg.json_path cfg.json_backup_root now data2
      let targetPath := mkPath target.path
      if delete_folder && sv.1.pathExists targetPath then
        (FS.rmtree sv.1 targetPath, .ok ⟨sv.2, true⟩)
      else
        (sv.1, .ok ⟨sv.2, false⟩)

/-- `LauncherService.validate_paths` (src/ugl/services.py, lines 326-341),
given the parsed registry document. -/
def validate_paths (cfg : LauncherConfig) (data : List (String × JVal))
    (st : FS) (apply_changes : Bool) (now : PyDateTime) :
    FS × Except SvcError ValidationResult :=
  match load_environments data with
  | none => (st, .error (.pyraise "AttributeError"))
  | some environments =>
    let issues_raw := sanitise_environment_paths environments
    let issues := issues_raw.map (fun t => PathIssue.mk t.1 t.2.1 t.2.2.1 t.2.2.2)
    if apply_changes && !issues.isEmpty then
      let environments2 := applyIssues environments issues_raw
      let data2 := set_environments data environments2
      let sv := save_json st cfg.json_path cfg.json_backup_root now data2
      (sv.1, .ok ⟨issues, true, sv.2⟩)
    else
      (st, .ok ⟨issues, false, none⟩)

/-- `LauncherService.prepare_session` (src/ugl/services.py, lines 343-361).
`os.environ.copy()` is the `osEnviron` parameter. Note: this function creates
the `.gam` structure and computes availability; it does NOT call
`remove_oauth_tokens`. -/
def prepare_session (st : FS) (env : Environment)
    (osEnviron : List (String × String)) : FS × Except SvcError EnvironmentSession :=
  let chosen := match normalise_path (some env.path) with
    | some n => if n == "" then env.path else n
    | none => env.path
  let gam_path := mkPath chosen
  if !st.pathExists gam_path then
    (st, .error (.pathError gam_path))
  else
    let gs := ensure_gam_structure st gam_path
    let gam_exe := pathJoin gam_path "gam.exe"
    let session_env := envSet osEnviron "GAMCFGDIR" gs.2
    (gs.1, .ok
      { environment := env
        gam_path := gam_path
        gam_dir := gs.2
        gam_exe := gam_exe
        gam_available := gs.1.pathExists gam_exe
        session_env := session_env })

/-- `GAM_COMMANDS` (src/ugl/services.py, lines 24-85): the fixed allow-list of
tool verbs. -/
def GAM_COMMANDS : List String :=
  ["adminrole", "alert", "alias", "browser", "building", "chatevent",
   "chatmember", "chatmessage", "chatspace", "chromeapp", "chromeprofile",
   "chromeprofilecommand", "chromeschema", "cigroup", "cigroupmembers",
   "contact", "course", "courses", "cros", "crostelemetry",
   "currentprojectid", "customer", "datatransfer", "device", "deviceuser",
   "deviceuserstate", "domain", "domainalias", "domaincontact",
   "drivefileacl", "drivelabel", "group", "groupmembers",
   "inboundssoassignment", "inboundssocredential", "inboundssoprofile",
   "instance", "mobile", "org", "orgs", "peoplecontact", "peopleprofile",
   "policy", "printer", "resoldcustomer", "resoldsubscription", "resource",
   "resources", "schema", "shareddrive", "site", "siteacl", "user",
   "userinvitation", "users", "vaultexport", "vaulthold", "vaultmatter",
   "vaultquery", "verify"]

/- ### Command routing (src/ugl/services.py, lines 169-197 and 363-382) -/

/-- Tokenizer state for the `shlex.split` model. -/
inductive ShlexMode where
  | normal
  | single
  | double

/-- The single-quote character (written via its code point). -/
def squoteChar : Char := Char.ofNat 39

/-- The double-quote character. -/
def dquoteChar : Char := Char.ofNat 34

/-- `shlex.split` (POSIX mode) modelled as a state machine over characters:
whitespace separates tokens, single and double quotes group, a backslash
escapes the next character (inside double quotes only `"` and `\` themselves).
An unterminated quote, on which `shlex` raises, closes the final token here;
no claim exercises that case. `acc` holds the current token reversed, `inTok`
records whether a token has started. -/
def shlexRun : ShlexMode → List Char → List Char → Bool → List String
  | .normal, [], acc, inTok => if inTok then [⟨acc.reverse⟩] else []
  | .normal, c :: rest, acc, inTok =>
      if isPySpace c then
        (if inTok then [(⟨acc.reverse⟩ : String)] else []) ++ shlexRun .normal rest [] false
      else if c == squoteChar then shlexRun .single rest acc true
      else if c == dquoteChar then shlexRun .double rest acc true
      else if c == '\\' then
        match rest with
        | [] => [⟨acc.reverse⟩]
        | d :: rest2 => shlexRun .normal rest2 (d :: acc) true
      else shlexRun .normal rest (c :: acc) true
  | .single, [], acc, _ => [⟨acc.reverse⟩]
  | .single, c :: rest, acc, _ =>
      if c == squoteChar then shlexRun .normal rest acc true
      else shlexRun .single rest (c :: acc) true
  | .double, [], acc, _ => [⟨acc.reverse⟩]
  | .double, c :: rest, acc, _ =>
      if c == dquoteChar then shlexRun .normal rest acc true
      else if c == '\\' then
        match rest with
        | [] => [⟨('\\' :: acc).reverse⟩]
        | d :: rest2 =>
            if d == dquoteChar || d == '\\' then shlexRun .double rest2 (d :: acc) true
            else shlexRun .double rest2 (d :: '\\' :: acc) true
      else shlexRun .double rest (c :: acc) true

def shlexSplit (s : String) : List String := shlexRun .normal s.data [] false

/-- One spawned child process, as observed from outside. -/
inductive SpawnEvent where
  | execProg (argv : List String) (cwd : String) (env : List (String × String))
  | shell (command : String) (cwd : String) (env : List (String × String))

/-- The outside world: the exit code each child process returns. Output
streaming is not modelled; no claim inspects the streamed lines. -/
structure ExecOracle where
  progExit : List String → String → List (String × String) → Int
  shellExit : String → String → List (String × String) → Int

/-- `run_subprocess` (src/ugl/services.py, lines 169-181): spawn the argv as a
child with the given environment and working directory, stream its output,
then return its exit code. The spawn is recorded as an event. -/
def run_subprocess (oracle : ExecOracle) (command : List String)
    (env : List (String × String)) (cwd : String) : List SpawnEvent × Int :=
  ([.execProg command cwd env], oracle.progExit command cwd env)

/-- `run_shell_command` (src/ugl/services.py, lines 184-197): hand the raw
line to the shell. -/
def run_shell_command (oracle : ExecOracle) (command : String)
    (env : List (String × String)) (cwd : String) : List SpawnEvent × Int :=
  ([.shell command cwd env], oracle.shellExit command cwd env)

/-- `LauncherService.run_command` (src/ugl/services.py, lines 363-382): the
command router. Returns the spawn events performed (at most one) and the exit
code. -/
def run_command (oracle : ExecOracle) (session : EnvironmentSession)
    (raw_command : String) : List SpawnEvent × Int :=
  match shlexSplit raw_command with
  | [] => ([], 0)
  | a0 :: rest =>
    let command_root := pyLower a0
    let use_gam := command_root == "gam" || GAM_COMMANDS.contains command_root
    if use_gam then
      if command_root == "gam" then
        match rest with
        | [] => ([], 0)
        | _ =>
          if session.gam_available then
            run_subprocess oracle (session.gam_exe :: rest) session.session_env session.gam_path
          else ([], 1)
      else
        if session.gam_available then
          run_subprocess oracle (session.gam_exe :: a0 :: rest) session.session_env session.gam_path
        else ([], 1)
    else
      run_shell_command oracle raw_command session.session_env session.gam_path

/- ### Helper lemmas for the sanitisation claims -/

theorem string_data_mk (l : List Char) : (⟨l⟩ : String).data = l := rfl

theorem normOrEmpty_eq (s : String) : normOrEmpty s = ⟨normaliseChars s.data⟩ := by
  show (if (⟨normaliseChars s.data⟩ : String) == "" then "" else ⟨normaliseChars s.data⟩)
      = ⟨normaliseChars s.data⟩
  by_cases h : (⟨normaliseChars s.data⟩ : String) = ""
  · rw [h]; simp
  · simp [h]

theorem normOrEmpty_idem_of_trimmed (p : String)
    (h : stripEnds isPySpace (normOrEmpty p).data = (normOrEmpty p).data) :
    normOrEmpty (normOrEmpty p) = normOrEmpty p := by
  simp only [normOrEmpty_eq, string_data_mk] at h ⊢
  exact congrArg String.mk (normaliseChars_idem_of_trimmed p.data h)

theorem get?_append_mid {α : Type} (pre : List α) (e : α) (rest : List α) :
    (pre ++ e :: rest).get? pre.length = some e := by
  induction pre with
  | nil => rfl
  | cons a t ih => simpa using ih

theorem set_append_mid {α : Type} (pre : List α) (e v : α) (rest : List α) :
    (pre ++ e :: rest).set pre.length v = pre ++ v :: rest := by
  induction pre with
  | nil => rfl
  | cons a t ih =>
    show a :: ((t ++ e :: rest).set t.length v) = a :: (t ++ v :: rest)
    rw [ih]

theorem setEnvPath_append (pre : List Environment) (e : Environment)
    (rest : List Environment) (p : String) :
    setEnvPath (pre ++ e :: rest) pre.length p = pre ++ { e with path := p } :: rest := by
  unfold setEnvPath
  rw [get?_append_mid]
  exact set_append_mid pre e { e with path := p } rest

theorem applyIssues_sanitiseAux :
    ∀ (envs pre : List Environment),
      applyIssues (pre ++ envs) (sanitiseAux pre.length envs)
        = pre ++ envs.map (fun e => { e with path := normOrEmpty e.path }) := by
  intro envs
  induction envs with
  | nil => intro pre; simp [sanitiseAux, applyIssues]
  | cons e rest ih =>
    intro pre
    by_cases hne : e.path ≠ normOrEmpty e.path
    · have hstep :
          applyIssues (pre ++ e :: rest)
              ((pre.length, e.name, e.path, normOrEmpty e.path) :: sanitiseAux (pre.length + 1) rest)
            = applyIssues (setEnvPath (pre ++ e :: rest) pre.length (normOrEmpty e.path))
              (sanitiseAux (pre.length + 1) rest) := rfl
      simp only [sanitiseAux, if_pos hne]
      rw [hstep, setEnvPath_append]
      have hlen : pre.length + 1 = (pre ++ [{ e with path := normOrEmpty e.path }]).length := by
        simp
      rw [show pre ++ { e with path := normOrEmpty e.path } :: rest
            = (pre ++ [{ e with path := normOrEmpty e.path }]) ++ rest by simp,
          hlen, ih]
      simp
    · push_neg at hne
      have hcond : ¬ e.path ≠ normOrEmpty e.path := not_not_intro hne
      have hee : ({ e with path := normOrEmpty e.path } : Environment) = e := by
        rw [← hne]
      simp only [sanitiseAux, if_neg hcond]
      have h1 : pre ++ e :: rest = (pre ++ [e]) ++ rest := by simp
      have h2 : pre.length + 1 = (pre ++ [e]).length := by simp
      rw [h1, h2, ih (pre ++ [e])]
      simp only [List.map_cons, hee]
      simp

theorem sanitiseAux_map_norm_nil :
    ∀ (envs : List Environment) (k : Nat),
      (∀ e ∈ envs, normOrEmpty (normOrEmpty e.path) = normOrEmpty e.path) →
      sanitiseAux k (envs.map (fun e => { e with path := normOrEmpty e.path })) = [] := by
  intro envs
  induction envs with
  | nil => intro k _; rfl
  | cons e rest ih =>
    intro k h
    have he : normOrEmpty (normOrEmpty e.path) = normOrEmpty e.path :=
      h e (List.mem_cons_self e rest)
    simp only [List.map_cons, sanitiseAux, he]
    simp only [ne_eq, not_true_eq_false, if_false, ite_false]
    exact ih (k + 1) (fun x hx => h x (List.mem_cons_of_mem e hx))

/- ### The claims -/

/-- C2 is false as stated: `normalise_path` is not idempotent. On the string
`" x"` (a quote, a space, `x`, a quote) the first pass strips the quotes and
exposes surrounding whitespace, so a second pass differs; correspondingly a
registry holding that path still reports an issue on the second
`validate_paths` run after `apply_changes`. -/
theorem c2_counterexample :
    normOrEmpty (normOrEmpty "\" x\"") ≠ normOrEmpty "\" x\"" ∧
    sanitise_environment_paths
        (applyIssues [⟨"A", "\" x\"", .jnull, .jnull⟩]
          (sanitise_environment_paths [⟨"A", "\" x\"", .jnull, .jnull⟩])) ≠ [] := by
  constructor
  · decide
  · decide

/-- C2, amended: `normalise_path` is idempotent on every string whose
normalised form carries no leading or trailing whitespace (stripping the
quote layer can expose whitespace that only a second pass would remove), and
under that condition on every stored path, running path sanitisation with
`applyChanges` leaves zero issues for the second run. -/
theorem c2_sanitise_idempotent_on_trimmed :
    (∀ p : String,
        stripEnds isPySpace (normOrEmpty p).data = (normOrEmpty p).data →
        normOrEmpty (normOrEmpty p) = normOrEmpty p) ∧
    (∀ envs : List Environment,
        (∀ e ∈ envs,
            stripEnds isPySpace (normOrEmpty e.path).data = (normOrEmpty e.path).data) →
        sanitise_environment_paths (applyIssues envs (sanitise_environment_paths envs)) = []) := by
  constructor
  · exact normOrEmpty_idem_of_trimmed
  · intro envs h
    have hA := applyIssues_sanitiseAux envs []
    simp only [List.nil_append, List.length_nil] at hA
    unfold sanitise_environment_paths
    rw [hA]
    exact sanitiseAux_map_norm_nil envs 0
      (fun e he => normOrEmpty_idem_of_trimmed e.path (h e he))

/-- Witness for the amended C2 theorem at a concrete path and registry. -/
theorem c2_sanitise_idempotent_on_trimmed_witness :
    normOrEmpty (normOrEmpty "C:/clients/acme") = normOrEmpty "C:/clients/acme" ∧
    sanitise_environment_paths
        (applyIssues [⟨"Acme", "C:/clients/acme", .jnull, .jnull⟩]
          (sanitise_environment_paths [⟨"Acme", "C:/clients/acme", .jnull, .jnull⟩])) = [] :=
  ⟨c2_sanitise_idempotent_on_trimmed.1 "C:/clients/acme" (by decide),
   c2_sanitise_idempotent_on_trimmed.2 [⟨"Acme", "C:/clients/acme", .jnull, .jnull⟩]
     (by decide)⟩

/- ### Dictionary and decoding lemmas -/

theorem pyOr_jnull (x : JVal) : pyOr .jnull x = x := rfl

theorem pyOr_jarr (xs : List JVal) : pyOr (.jarr xs) (.jarr []) = .jarr xs := by
  cases xs with
  | nil => rfl
  | cons x t => rfl

theorem pyStr_or_empty (s : String) : pyStr (pyOr (.jstr s) (.jstr "")) = s := by
  by_cases h : s = ""
  · subst h; rfl
  · have ht : truthy (.jstr s) = true := by simp [truthy, h]
    simp [pyOr, ht, pyStr]

theorem dictGet_dictSet (d : List (String × JVal)) (k : String) (v : JVal) :
    dictGet (dictSet d k v) k = v := by
  induction d with
  | nil => simp [dictSet, dictGet, List.find?]
  | cons kv rest ih =>
    obtain ⟨k0, v0⟩ := kv
    by_cases h : (k0 == k) = true
    · simp [dictSet, h, dictGet, List.find?]
    · simp only [dictSet, if_neg h]
      simp only [dictGet, List.find?, h] at ih ⊢
      exact ih

theorem from_dict_asdict (e : Environment) :
    Environment.fromVal (Environment.asdict e) = some e := by
  show some (Environment.from_dict [("name", JVal.jstr e.name), ("path", JVal.jstr e.path),
      ("admin", e.admin), ("color", e.color)]) = some e
  congr 1
  unfold Environment.from_dict
  have h1 : dictGet [("name", JVal.jstr e.name), ("path", JVal.jstr e.path),
      ("admin", e.admin), ("color", e.color)] "Name" = .jnull := rfl
  have h2 : dictGet [("name", JVal.jstr e.name), ("path", JVal.jstr e.path),
      ("admin", e.admin), ("color", e.color)] "name" = .jstr e.name := rfl
  have h3 : dictGet [("name", JVal.jstr e.name), ("path", JVal.jstr e.path),
      ("admin", e.admin), ("color", e.color)] "Path" = .jnull := rfl
  have h4 : dictGet [("name", JVal.jstr e.name), ("path", JVal.jstr e.path),
      ("admin", e.admin), ("color", e.color)] "path" = .jstr e.path := rfl
  have h5 : dictGet [("name", JVal.jstr e.name), ("path", JVal.jstr e.path),
      ("admin", e.admin), ("color", e.color)] "Admin" = .jnull := rfl
  have h6 : dictGet [("name", JVal.jstr e.name), ("path", JVal.jstr e.path),
      ("admin", e.admin), ("color", e.color)] "admin" = e.admin := rfl
  have h7 : dictGet [("name", JVal.jstr e.name), ("path", JVal.jstr e.path),
      ("admin", e.admin), ("color", e.color)] "Color" = .jnull := rfl
  have h8 : dictGet [("name", JVal.jstr e.name), ("path", JVal.jstr e.path),
      ("admin", e.admin), ("color", e.color)] "color" = e.color := rfl
  rw [h1, h2, h3, h4, h5, h6, h7, h8, pyOr_jnull, pyOr_jnull, pyOr_jnull, pyOr_jnull,
      pyStr_or_empty, pyStr_or_empty]

theorem mapM_fromVal_asdict (envs : List Environment) :
    (envs.map Environment.asdict).mapM Environment.fromVal = some envs := by
  induction envs with
  | nil => rfl
  | cons e rest ih =>
    rw [List.map_cons, List.mapM_cons, from_dict_asdict, ih]
    rfl

/-- C4: decoding each record of a registry document into an `Environment` and
re-encoding the list back into the document preserves every environment's
name, path, admin and colour values: re-decoding the re-encoded document
yields exactly the same environments (and encode-then-decode is the identity
on every `Environment`). -/
theorem c4_roundtrip :
    (∀ e : Environment, Environment.fromVal (Environment.asdict e) = some e) ∧
    (∀ (data : List (String × JVal)) (envs : List Environment),
        load_environments data = some envs →
        load_environments (set_environments data envs) = some envs) := by
  constructor
  · exact from_dict_asdict
  · intro data envs _
    have h1 : pyOr (dictGet (set_environments data envs) "Environments") (.jarr [])
        = .jarr (envs.map Environment.asdict) := by
      unfold set_environments
      rw [dictGet_dictSet, pyOr_jarr]
    unfold load_environments
    rw [h1]
    exact mapM_fromVal_asdict envs

/-- Witness for C4 on a concrete document (capital keys, an extra top-level
key, a null colour). -/
theorem c4_roundtrip_witness :
    load_environments
        (set_environments
          [("Environments", .jarr [.jobj [("Name", .jstr "Test Env"),
              ("Path", .jstr "C:\\clients\\TestEnv"),
              ("Admin", .jstr "admin@example.com"), ("Color", .jnull)]]),
           ("Extra", .jnum 7)]
          [⟨"Test Env", "C:\\clients\\TestEnv", .jstr "admin@example.com", .jnull⟩])
      = some [⟨"Test Env", "C:\\clients\\TestEnv", .jstr "admin@example.com", .jnull⟩] :=
  c4_roundtrip.2
    [("Environments", .jarr [.jobj [("Name", .jstr "Test Env"),
        ("Path", .jstr "C:\\clients\\TestEnv"),
        ("Admin", .jstr "admin@example.com"), ("Color", .jnull)]]),
     ("Extra", .jnum 7)]
    [⟨"Test Env", "C:\\clients\\TestEnv", .jstr "admin@example.com", .jnull⟩] rfl

/-- C9: well-formed JSON whose top level is not an object (a list, a number,
a string) makes `load_json` raise an uncaught `AttributeError` at
`content.get("Environments")` — it neither returns a repaired document nor
the explicit load-failure value `None`. -/
theorem c9_load_json_escapes_taxonomy :
    load_json (some (.jarr [.jnum 1])) = .raises "AttributeError" ∧
    load_json (some (.jnum 5)) = .raises "AttributeError" ∧
    load_json (some (.jstr "x")) = .raises "AttributeError" ∧
    (∀ doc, (LoadOutcome.raises "AttributeError") ≠ LoadOutcome.ok doc) ∧
    (LoadOutcome.raises "AttributeError") ≠ LoadOutcome.failure :=
  ⟨rfl, rfl, rfl, fun _ h => LoadOutcome.noConfusion h, fun h => LoadOutcome.noConfusion h⟩

/-- Concrete fixtures for C10. -/
def c10doc : List (String × JVal) :=
  [("Environments", .jarr [.jobj [("Name", .jstr "Test"), ("Path", .jstr "C:\\envs\\Test")]])]

def c10cfg : LauncherConfig :=
  ⟨"C:\\cfg", "C:\\cfg\\GAM_Clients.json", "C:\\logs", "C:\\cfg\\GAM-Template",
   "C:\\cfg\\GAM-JSONBackups", "C:\\cfg\\GAM-Clients"⟩

def c10st : FS := ⟨["C:\\envs\\Test"], [("C:\\cfg\\GAM_Clients.json", "prior-bytes")]⟩

/-- C10: name lookup is case-insensitive, deletion is case-sensitive: with one
environment named `Test`, `get_environment_by_name "test"` succeeds while
`delete_environment "test"` fails with not-found and leaves state (registry
file and filesystem) unchanged. -/
theorem c10_lookup_insensitive_delete_sensitive :
    get_environment_by_name c10doc "test" = .ok ⟨"Test", "C:\\envs\\Test", .jnull, .jnull⟩ ∧
    delete_environment c10cfg c10doc c10st "test" false ⟨2025, 1, 2, 3, 4, 5⟩
      = (c10st, .error .notFound) :=
  ⟨rfl, rfl⟩

/- ### Filesystem lemmas -/

theorem mkdir_files (st : FS) (p : String) : (st.mkdir p).files = st.files := by
  unfold FS.mkdir
  split <;> rfl

theorem readFile_mkdir (st : FS) (p q : String) :
    (st.mkdir p).readFile q = st.readFile q := by
  unfold FS.readFile
  rw [mkdir_files]

theorem readFile_writeFile_self (st : FS) (p c : String) :
    (st.writeFile p c).readFile p = some c := by
  unfold FS.writeFile FS.readFile
  simp [List.find?]

theorem find?_filter_comm (files : List (String × String)) (p q : String) (h : q ≠ p) :
    (files.filter (fun kv => kv.1 != p)).find? (fun kv => kv.1 == q)
      = files.find? (fun kv => kv.1 == q) := by
  induction files with
  | nil => rfl
  | cons kv rest ih =>
    by_cases hk : kv.1 = p
    · have h1 : (kv.1 != p) = false := by simp [hk]
      have h2 : (kv.1 == q) = false := by
        rw [hk]
        simp only [beq_eq_false_iff_ne, ne_eq]
        exact fun hq => h hq.symm
      simp [List.filter_cons, h1, List.find?_cons, h2, ih]
    · have h1 : (kv.1 != p) = true := by simp [hk]
      by_cases h2 : kv.1 = q
      · have h2' : (kv.1 == q) = true := by simp [h2]
        simp [List.filter_cons, h1, List.find?_cons, h2']
      · have h2' : (kv.1 == q) = false := by simp [h2]
        simp [List.filter_cons, h1, List.find?_cons, h2', ih]

theorem readFile_writeFile_ne (st : FS) (p q c : String) (h : q ≠ p) :
    (st.writeFile p c).readFile q = st.readFile q := by
  unfold FS.writeFile FS.readFile
  have hpq : (p == q) = false := by
    simp only [beq_eq_false_iff_ne, ne_eq]
    exact fun hq => h hq.symm
  simp only [List.find?_cons, hpq]
  rw [find?_filter_comm st.files p q h]

theorem find?_filter_none {α : Type} (pr f : α → Bool) (l : List α)
    (h : l.find? pr = none) : (l.filter f).find? pr = none := by
  rw [List.find?_eq_none] at h ⊢
  intro x hx
  exact h x (List.mem_of_mem_filter hx)

theorem readFile_unlink_self (st : FS) (p : String) :
    (st.unlink p).readFile p = none := by
  unfold FS.unlink FS.readFile
  have : (st.files.filter (fun kv => kv.1 != p)).find? (fun kv => kv.1 == p) = none := by
    rw [List.find?_eq_none]
    intro x hx
    have hq := List.of_mem_filter hx
    simp at hq ⊢
    exact hq
  rw [this]
  rfl

theorem readFile_unlink_none (st : FS) (p q : String) (h : st.readFile p = none) :
    (st.unlink q).readFile p = none := by
  unfold FS.readFile at h
  unfold FS.unlink FS.readFile
  cases hf : st.files.find? (fun kv => kv.1 == p) with
  | some kv => rw [hf] at h; simp at h
  | none =>
    rw [find?_filter_none _ _ _ hf]
    rfl

theorem readFile_of_not_exists (st : FS) (p : String) (h : st.pathExists p = false) :
    st.readFile p = none := by
  unfold FS.pathExists FS.isFile at h
  cases hrf : st.readFile p with
  | none => rfl
  | some c =>
    rw [hrf] at h
    simp at h

theorem ensure_gam_structure_files (st : FS) (b : String) :
    (ensure_gam_structure st b).1.files = st.files := by
  unfold ensure_gam_structure ensure_directories
  simp only [List.foldl_cons, List.foldl_nil, mkdir_files]

theorem save_json_pos (st : FS) (jp br : String) (now : PyDateTime)
    (data : List (String × JVal)) (hex : st.pathExists jp = true) :
    save_json st jp br now data
      = (((st.mkdir br).writeFile
            (pathJoin br ("GAM_Clients_" ++ strftime_timestamp now ++ ".json"))
            ((st.readFile jp).getD "")).writeFile jp (dumpsV (.jobj data)),
         some (pathJoin br ("GAM_Clients_" ++ strftime_timestamp now ++ ".json"))) := by
  unfold save_json
  rw [if_pos hex]

theorem save_json_neg (st : FS) (jp br : String) (now : PyDateTime)
    (data : List (String × JVal)) (hex : st.pathExists jp = false) :
    save_json st jp br now data = (st.writeFile jp (dumpsV (.jobj data)), none) := by
  unfold save_json
  rw [if_neg (by simp [hex])]

/-- C6: `save_json` produces a backup if and only if a document already
existed at the registry path; when produced, the backup's bytes equal the
prior document's bytes as they were immediately before the overwrite, and the
backup path is returned (`none` otherwise). Hypotheses: the registry path is
not a directory, and the registry path does not alias the backup target path
(degenerate self-overwrite). -/
theorem c6_save_backup_iff_prior (st : FS) (json_path backup_root : String)
    (now : PyDateTime) (data : List (String × JVal))
    (hne : pathJoin backup_root ("GAM_Clients_" ++ strftime_timestamp now ++ ".json")
        ≠ json_path)
    (hnd : st.isDir json_path = false) :
    ((save_json st json_path backup_root now data).2.isSome
        ↔ (st.readFile json_path).isSome) ∧
    (∀ prior, st.readFile json_path = some prior →
        ∃ bp, (save_json st json_path backup_root now data).2 = some bp ∧
          (save_json st json_path backup_root now data).1.readFile bp = some prior) := by
  by_cases hex : st.pathExists json_path = true
  · have hf : st.isFile json_path = true := by
      unfold FS.pathExists at hex
      rw [hnd] at hex
      simpa using hex
    rw [save_json_pos st json_path backup_root now data hex]
    constructor
    · unfold FS.isFile at hf
      simp [hf]
    · intro prior hp
      refine ⟨pathJoin backup_root ("GAM_Clients_" ++ strftime_timestamp now ++ ".json"),
        rfl, ?_⟩
      rw [readFile_writeFile_ne _ _ _ _ hne, readFile_writeFile_self, hp]
      rfl
  · have hex0 : st.pathExists json_path = false := by simpa using hex
    rw [save_json_neg st json_path backup_root now data hex0]
    constructor
    · simp [readFile_of_not_exists st json_path hex0]
    · intro prior hp
      rw [readFile_of_not_exists st json_path hex0] at hp
      exact absurd hp (by simp)

/-- Witness for C6: saving over an existing one-file registry produces the
timestamped backup holding the old bytes. -/
theorem c6_save_backup_iff_prior_witness :
    (save_json ⟨[], [("C:\\cfg\\GAM_Clients.json", "old-bytes")]⟩ "C:\\cfg\\GAM_Clients.json"
        "C:\\bk" ⟨2025, 1, 2, 3, 4, 5⟩ []).2
      = some "C:\\bk\\GAM_Clients_20250102_030405.json" ∧
    (save_json ⟨[], [("C:\\cfg\\GAM_Clients.json", "old-bytes")]⟩ "C:\\cfg\\GAM_Clients.json"
        "C:\\bk" ⟨2025, 1, 2, 3, 4, 5⟩ []).1.readFile
        "C:\\bk\\GAM_Clients_20250102_030405.json" = some "old-bytes" := by
  obtain ⟨bp, h1, h2⟩ :=
    (c6_save_backup_iff_prior ⟨[], [("C:\\cfg\\GAM_Clients.json", "old-bytes")]⟩
      "C:\\cfg\\GAM_Clients.json" "C:\\bk" ⟨2025, 1, 2, 3, 4, 5⟩ []
      (by decide) rfl).2 "old-bytes" rfl
  have hlit : (save_json ⟨[], [("C:\\cfg\\GAM_Clients.json", "old-bytes")]⟩
      "C:\\cfg\\GAM_Clients.json" "C:\\bk" ⟨2025, 1, 2, 3, 4, 5⟩ []).2
      = some "C:\\bk\\GAM_Clients_20250102_030405.json" := rfl
  have hb : bp = "C:\\bk\\GAM_Clients_20250102_030405.json" := by
    rw [h1] at hlit
    exact Option.some.inj hlit
  exact ⟨hlit, hb ▸ h2⟩

/-- C3 is false as stated: the backup name does not use the stem of the
registry document being overwritten — it always uses the fixed literal
`GAM_Clients`. Overwriting `other.json` produces
`GAM_Clients_20250102_030405.json`, not `other_20250102_030405.json`. -/
theorem c3_counterexample :
    (save_json ⟨[], [("C:\\data\\other.json", "old")]⟩ "C:\\data\\other.json" "C:\\backups"
        ⟨2025, 1, 2, 3, 4, 5⟩ []).2 = some "C:\\backups\\GAM_Clients_20250102_030405.json" ∧
    "C:\\backups\\GAM_Clients_20250102_030405.json"
      ≠ "C:\\backups\\other_20250102_030405.json" :=
  ⟨rfl, by decide⟩

/-- C3, amended: whenever a document exists at the registry path, the backup
is written under `backupRoot` as `GAM_Clients_<YYYYMMDD_HHMMSS>.json` — the
fixed stem `GAM_Clients` (the default registry document's base name, not the
overwritten document's own base name) followed by the second-granularity
timestamp. -/
theorem c3_backup_name_fixed_stem (st : FS) (json_path backup_root : String)
    (now : PyDateTime) (data : List (String × JVal))
    (hex : st.pathExists json_path = true) :
    (save_json st json_path backup_root now data).2
      = some (pathJoin backup_root ("GAM_Clients_" ++ strftime_timestamp now ++ ".json")) := by
  rw [save_json_pos st json_path backup_root now data hex]

/-- Witness for the amended C3 at a concrete state and timestamp. -/
theorem c3_backup_name_fixed_stem_witness :
    (save_json ⟨[], [("C:\\data\\other.json", "old")]⟩ "C:\\data\\other.json" "C:\\backups"
        ⟨2025, 1, 2, 3, 4, 5⟩ []).2
      = some (pathJoin "C:\\backups" ("GAM_Clients_" ++ strftime_timestamp ⟨2025, 1, 2, 3, 4, 5⟩ ++ ".json")) :=
  c3_backup_name_fixed_stem ⟨[], [("C:\\data\\other.json", "old")]⟩ "C:\\data\\other.json"
    "C:\\backups" ⟨2025, 1, 2, 3, 4, 5⟩ [] rfl

/-- C5: `create_environment` against a registry already containing the
requested name, or an environment whose normalised stored path equals
`clients_root / safe_folder_key(name)`, fails with already-exists and
performs no filesystem mutation and no registry mutation: the whole state
(directories, files — hence registry document and backups) is returned
unchanged. -/
theorem c5_create_duplicate_no_mutation (cfg : LauncherConfig)
    (data : List (String × JVal)) (st : FS) (name : String) (admin color : JVal)
    (now : PyDateTime) (envs : List Environment)
    (hload : load_environments data = some envs)
    (hdup : ∃ e ∈ envs, e.name = name ∨
        normalise_path (some e.path)
          = some (pathJoin cfg.clients_root (safe_folder_key name))) :
    create_environment cfg data st name admin color now = (st, .error .alreadyExists) := by
  unfold create_environment
  simp only [hload]
  have hany : (envs.any (fun env => env.name == name ||
      normalise_path (some env.path)
        == some (pathJoin cfg.clients_root (safe_folder_key name)))) = true := by
    rw [List.any_eq_true]
    obtain ⟨e, he, hcase⟩ := hdup
    refine ⟨e, he, ?_⟩
    cases hcase with
    | inl h => simp [h]
    | inr h => simp [h]
  rw [if_pos hany]

/-- Concrete fixtures for the C5 witness. -/
def c5cfg : LauncherConfig :=
  ⟨"C:\\cfg", "C:\\cfg\\GAM_Clients.json", "C:\\logs", "C:\\cfg\\GAM-Template",
   "C:\\cfg\\GAM-JSONBackups", "C:\\clients"⟩

def c5doc : List (String × JVal) :=
  [("Environments", .jarr [.jobj [("Name", .jstr "Acme"), ("Path", .jstr "C:\\clients\\Acme")]])]

def c5st : FS := ⟨["C:\\clients", "C:\\clients\\Acme"], [("C:\\cfg\\GAM_Clients.json", "doc")]⟩

/-- Witness for C5: creating `Acme` again is rejected with the state intact. -/
theorem c5_create_duplicate_no_mutation_witness :
    create_environment c5cfg c5doc c5st "Acme" .jnull .jnull ⟨2025, 1, 2, 3, 4, 5⟩
      = (c5st, .error .alreadyExists) :=
  c5_create_duplicate_no_mutation c5cfg c5doc c5st "Acme" .jnull .jnull ⟨2025, 1, 2, 3, 4, 5⟩
    [⟨"Acme", "C:\\clients\\Acme", .jnull, .jnull⟩] rfl
    ⟨⟨"Acme", "C:\\clients\\Acme", .jnull, .jnull⟩, List.mem_singleton.mpr rfl, Or.inl rfl⟩

theorem removeTok_gone (s : FS) (tok : String) :
    (if s.pathExists tok then s.unlink tok else s).readFile tok = none := by
  by_cases h : s.pathExists tok = true
  · rw [if_pos h]
    exact readFile_unlink_self s tok
  · have h0 : s.pathExists tok = false := by simpa using h
    rw [if_neg (by simp [h0])]
    exact readFile_of_not_exists s tok h0

theorem removeTok_none (s : FS) (tok p : String) (h : s.readFile p = none) :
    (if s.pathExists tok then s.unlink tok else s).readFile p = none := by
  by_cases hex : s.pathExists tok = true
  · rw [if_pos hex]
    exact readFile_unlink_none s p tok h
  · rw [if_neg hex]
    exact h

/-- Concrete fixtures for the C1 counterexample. -/
def c1st : FS :=
  ⟨["C:\\envs\\A", "C:\\envs\\A\\.gam"], [("C:\\envs\\A\\.gam\\oauth2.txt", "token")]⟩

def c1env : Environment := ⟨"A", "C:\\envs\\A", .jnull, .jnull⟩

/-- C1 is false as stated: `prepare_session` on an existing environment path
whose configuration root holds a pre-existing `oauth2.txt` returns a session
while leaving the token file exactly in place — it performs no token
deletion at all. -/
theorem c1_counterexample :
    prepare_session c1st c1env []
      = (⟨["C:\\envs\\A\\.gam\\drive", "C:\\envs\\A\\.gam\\gamcache", "C:\\envs\\A",
            "C:\\envs\\A\\.gam"],
          [("C:\\envs\\A\\.gam\\oauth2.txt", "token")]⟩,
         .ok ⟨c1env, "C:\\envs\\A", "C:\\envs\\A\\.gam", "C:\\envs\\A\\gam.exe", false,
           [("GAMCFGDIR", "C:\\envs\\A\\.gam")]⟩) ∧
    (prepare_session c1st c1env []).1.readFile "C:\\envs\\A\\.gam\\oauth2.txt"
      = some "token" :=
  ⟨rfl, rfl⟩

/-- C1, amended: the stale-token hygiene step lives in `create_environment`,
not in `prepare_session`. `prepare_session` never deletes (or writes) any
file — its only filesystem effect is creating the `.gam` directory
structure — while `remove_oauth_tokens`, which `create_environment` invokes
right after `ensure_gam_structure`, does delete both OAuth token artifacts
under the configuration root. -/
theorem c1_prepare_session_no_token_deletion :
    (∀ (st : FS) (env : Environment) (osEnviron : List (String × String)),
        (prepare_session st env osEnviron).1.files = st.files) ∧
    (∀ (st : FS) (gam_dir : String),
        (remove_oauth_tokens st gam_dir).readFile (pathJoin gam_dir "oauth2.txt") = none ∧
        (remove_oauth_tokens st gam_dir).readFile (pathJoin gam_dir "oauth2service.json")
          = none) := by
  constructor
  · intro st env osEnviron
    unfold prepare_session
    dsimp only
    repeat' split
    all_goals first | rfl | exact ensure_gam_structure_files st _
  · intro st gam_dir
    constructor
    · exact removeTok_none _ _ _ (removeTok_gone st (pathJoin gam_dir "oauth2.txt"))
    · exact removeTok_gone _ _

/-- C7: with the bound executable available and `user` in the allow-list,
routing `user info someone@example.com` spawns the bound executable exactly
once with argument list `["user", "info", "someone@example.com"]`, working
directory equal to the session's environment path and the session's
process-environment mapping, and returns the child's exit code. -/
theorem c7_route_user_info (oracle : ExecOracle) (session : EnvironmentSession)
    (h : session.gam_available = true) :
    run_command oracle session "user info someone@example.com"
      = ([.execProg (session.gam_exe :: ["user", "info", "someone@example.com"])
            session.gam_path session.session_env],
         oracle.progExit (session.gam_exe :: ["user", "info", "someone@example.com"])
           session.gam_path session.session_env) := by
  have hred : run_command oracle session "user info someone@example.com"
      = (if session.gam_available then
           run_subprocess oracle (session.gam_exe :: ["user", "info", "someone@example.com"])
             session.session_env session.gam_path
         else ([], 1)) := rfl
  rw [hred, if_pos h]
  rfl

/-- Concrete fixtures for the routing witnesses. -/
def c7session : EnvironmentSession :=
  ⟨⟨"A", "C:\\envs\\A", .jnull, .jnull⟩, "C:\\envs\\A", "C:\\envs\\A\\.gam",
   "C:\\envs\\A\\gam.exe", true, [("GAMCFGDIR", "C:\\envs\\A\\.gam")]⟩

def c7oracle : ExecOracle := ⟨fun _ _ _ => 7, fun _ _ _ => 9⟩

/-- Witness for C7: the spawn event and the oracle's exit code 7 come back. -/
theorem c7_route_user_info_witness :
    run_command c7oracle c7session "user info someone@example.com"
      = ([.execProg ["C:\\envs\\A\\gam.exe", "user", "info", "someone@example.com"]
            "C:\\envs\\A" [("GAMCFGDIR", "C:\\envs\\A\\.gam")]], 7) :=
  c7_route_user_info c7oracle c7session rfl

def c8session : EnvironmentSession :=
  ⟨⟨"B", "C:\\envs\\B", .jnull, .jnull⟩, "C:\\envs\\B", "C:\\envs\\B\\.gam",
   "C:\\envs\\B\\gam.exe", false, [("GAMCFGDIR", "C:\\envs\\B\\.gam")]⟩

/-- C8 is false as stated: the single token `gam` is classified as a tool
invocation (its first token is the invocation name), yet with the executable
unavailable the router returns SUCCESS (exit code 0) through the
"no GAM command provided" diagnostic path — not a non-zero status. It spawns
nothing, but the claimed non-zero exit does not hold. -/
theorem c8_counterexample :
    shlexSplit "gam" = ["gam"] ∧ pyLower "gam" = "gam" ∧
    c8session.gam_available = false ∧
    run_command c7oracle c8session "gam" = ([], 0) :=
  ⟨rfl, rfl, rfl, rfl⟩

/-- C8, amended: a command line classified as a tool invocation that still
has arguments for the tool (first token lower-cased in the allow-list, or
equal to `gam` with further tokens following), routed against a session whose
executable is unavailable, reports unavailability and returns exit code 1
without spawning any child process. (The lone token `gam` is instead rejected
with a diagnostic and exit code 0, also without spawning.) -/
theorem c8_unavailable_no_spawn (oracle : ExecOracle) (session : EnvironmentSession)
    (raw a0 : String) (rest : List String)
    (hsplit : shlexSplit raw = a0 :: rest)
    (hn : session.gam_available = false)
    (hroot : (pyLower a0 = "gam" ∧ rest ≠ []) ∨
        (pyLower a0 ≠ "gam" ∧ pyLower a0 ∈ GAM_COMMANDS)) :
    run_command oracle session raw = ([], 1) := by
  cases hroot with
  | inl hcase =>
    obtain ⟨hg, hr⟩ := hcase
    cases rest with
    | nil => exact absurd rfl hr
    | cons b bs => simp [run_command, hsplit, hg, hn]
  | inr hcase =>
    obtain ⟨hng, hmem⟩ := hcase
    have hg' : (pyLower a0 == "gam") = false := by simp [hng]
    simp [run_command, hsplit, hg', hmem, hn]

/-- Witness for the amended C8: `user info ...` against a session without the
executable returns 1 and spawns nothing. -/
theorem c8_unavailable_no_spawn_witness :
    run_command c7oracle c8session "user info someone@example.com" = ([], 1) :=
  c8_unavailable_no_spawn c7oracle c8session "user info someone@example.com" "user"
    ["info", "someone@example.com"] rfl rfl (Or.inr ⟨by decide, by decide⟩)
